import Mathlib

/-!
Verification of `text_to_image/fkd_diffusers/llm_grading.py`: a shallow
embedding of the LLM-grading component (schema types, input assembly,
client construction and the `score` method) together with theorems about
its behaviour.

Modelling conventions:
* Python numeric score values are modelled as `ℚ` (the code only moves
  them around, never performs floating-point arithmetic on them).
* Python exceptions are the `PyExn` inductive; `Except PyExn` models
  raise/return control flow.
* The external network call (`client.models.generate_content`) is a
  function parameter `respond : Request → Response`; the list of issued
  requests is returned alongside the result so that "no network
  interaction" is observable.
* `score` returns the post-call client state explicitly (the method body
  never assigns to `self`, so the translation returns `self` unchanged).
-/

namespace LlmGrading

/-- Python exception values raised by the component or the libraries it calls. -/
inductive PyExn where
  | valueError (msg : String)
  | indexError (msg : String)
  | typeError (msg : String)
  | keyError (key : String)
  | configurationError (msg : String)
  deriving DecidableEq, Repr

/-- `class Score(typing.TypedDict)`: one aspect's numeric score plus explanation. -/
structure Score where
  score : ℚ
  explanation : String
  deriving DecidableEq, Repr

/-- `class Grading(typing.TypedDict)`: the six fixed aspect keys, each a `Score`. -/
structure Grading where
  accuracy_to_prompt : Score
  creativity_and_originality : Score
  visual_quality_and_realism : Score
  consistency_and_cohesion : Score
  emotional_or_thematic_resonance : Score
  overall_score : Score
  deriving DecidableEq, Repr

/-- The six keys of the `Grading` TypedDict, in declaration order. -/
def gradingKeys : List String :=
  ["accuracy_to_prompt",
   "creativity_and_originality",
   "visual_quality_and_realism",
   "consistency_and_cohesion",
   "emotional_or_thematic_resonance",
   "overall_score"]

/-- Runtime subscript access `grading[key]` on the `Grading` TypedDict
(`typing.TypedDict` is a plain `dict` at runtime, so lookup is by string key;
`none` models a `KeyError` for a key outside the six fields). -/
def Grading.get (g : Grading) (key : String) : Option Score :=
  if key = "accuracy_to_prompt" then some g.accuracy_to_prompt
  else if key = "creativity_and_originality" then some g.creativity_and_originality
  else if key = "visual_quality_and_realism" then some g.visual_quality_and_realism
  else if key = "consistency_and_cohesion" then some g.consistency_and_cohesion
  else if key = "emotional_or_thematic_resonance" then some g.emotional_or_thematic_resonance
  else if key = "overall_score" then some g.overall_score
  else none

/-- A raster image (PIL `Image.Image`): a color mode tag, the three-channel
pixel content, and any extra per-mode side information (alpha channel or
palette data), which the RGB conversion discards. -/
structure Img where
  mode : String
  rgb : List (Nat × Nat × Nat)
  extra : List Nat
  deriving DecidableEq, Repr

/-- Modelled from the spec: PIL `Image.convert` is an external image utility
("image I/O/encoding utilities" are out-of-scope collaborators); per the spec
the image "is normalized to a fixed color mode (three-channel RGB) before
encoding, discarding any alpha/palette information". -/
def Img.convert (i : Img) (target_mode : String) : Img :=
  { mode := target_mode, rgb := i.rgb, extra := [] }

/-- Flatten RGB triples into a byte stream. -/
def flattenRGB : List (Nat × Nat × Nat) → List Nat
  | [] => []
  | (r, g, b) :: rest => r :: g :: b :: flattenRGB rest

/-- Modelled from the spec: the in-memory PNG serialization of an RGB image is
an external encoder; per the spec it is "a lossless compressed byte
representation (PNG)". Modelled as the flattened channel stream of the
three-channel content. -/
def pngEncode (i : Img) : List Nat :=
  flattenRGB i.rgb

/-- Regroup a byte stream into RGB triples (inverse of `flattenRGB`). -/
def chunkRGB : List Nat → List (Nat × Nat × Nat)
  | r :: g :: b :: rest => (r, g, b) :: chunkRGB rest
  | _ => []

/-- Modelled from the spec: PNG decoding of an RGB-mode encoded image,
witnessing that the encoding of `pngEncode` is lossless. -/
def pngDecode (bytes : List Nat) : Img :=
  { mode := "RGB", rgb := chunkRGB bytes, extra := [] }

/-- `convert_to_bytes(image)`: convert to RGB, serialize to PNG bytes in memory. -/
def convert_to_bytes (image : Img) : List Nat :=
  pngEncode (image.convert "RGB")

/-- A `google.genai.types.Part`: one typed unit of multimodal request content. -/
inductive Part where
  | from_text (text : String)
  | from_bytes (data : List Nat) (mime_type : String)
  deriving DecidableEq, Repr

/-- `prepare_inputs(prompt, image)`: text part first, then the PNG image part. -/
def prepare_inputs (prompt : String) (image : Img) : List Part :=
  [Part.from_text prompt,
   Part.from_bytes (convert_to_bytes image) "image/png"]

/-- A Python runtime value as passed for the dynamically-typed `images` /
`prompts` arguments of `score`: a string, an image, a list, or a tuple. -/
inductive PyVal where
  | str (s : String)
  | img (i : Img)
  | list (l : List PyVal)
  | tuple (l : List PyVal)

/-- `x = [x] if not isinstance(x, list) else x`: the single-item
normalization in `score`. Only the exact `list` type passes through; any
other value (a string, an image, a tuple, ...) is wrapped as one item. -/
def listify (v : PyVal) : List PyVal :=
  match v with
  | PyVal.list l => l
  | x => [x]

/-- `prepare_inputs` as invoked from `score` on dynamically-typed pair
members: with a string prompt and an image it builds the two parts; other
shapes model the runtime faults Python raises (`Part.from_text` rejects a
non-string, `convert_to_bytes` dereferences `.convert` on the image). -/
def prepare_inputs_py (text : PyVal) (image : PyVal) : Except PyExn (List Part) :=
  match text with
  | PyVal.str s =>
      match image with
      | PyVal.img i => Except.ok (prepare_inputs s i)
      | _ => Except.error (PyExn.typeError "object has no attribute convert")
  | _ => Except.error (PyExn.typeError "from_text expects a string")

/-- The `for text, image in zip(prompts, images): inputs.extend(...)` loop:
parts for each pair are concatenated in pair order; the first failing pair
aborts the whole assembly. -/
def assemble : List (PyVal × PyVal) → Except PyExn (List Part)
  | [] => Except.ok []
  | (t, i) :: rest =>
      match prepare_inputs_py t i with
      | Except.error e => Except.error e
      | Except.ok ps =>
          match assemble rest with
          | Except.error e => Except.error e
          | Except.ok rs => Except.ok (ps ++ rs)

/-- Python `repr` of a short string (as produced by the f-string debug
specifier and by list rendering). -/
def pyRepr (s : String) : String :=
  "'" ++ s ++ "'"

/-- The comma-separated interior of Python's rendering of a list of strings. -/
def pyReprListAux : List String → String
  | [] => ""
  | [x] => pyRepr x
  | x :: rest => pyRepr x ++ ", " ++ pyReprListAux rest

/-- Python's rendering `str(list_of_strings)` as interpolated by an f-string. -/
def pyReprList (l : List String) : String :=
  "[" ++ pyReprListAux l ++ "]"

/-- The message of the `ValueError` raised for an unrecognized metric:
`f"Unknown \x60{metric_to_chase=}\x60 obtained. Supported ones are: {self.supported_metrics}"`. -/
def unknownMetricMsg (m : String) (supported : List String) : String :=
  "Unknown `metric_to_chase=" ++ pyRepr m ++ "` obtained. Supported ones are: "
    ++ pyReprList supported

/-- `s` has `pat` as a contiguous substring. -/
def strContains (s pat : String) : Prop :=
  pat.data <:+: s.data

/-- `VERIFIER_PROMPT`: the fixed grading rubric supplied as the system
instruction (cited in the source from arxiv 2501.09732). -/
def VERIFIER_PROMPT : String :=
  "
You are a multimodal large-language model tasked with evaluating images
generated by a text-to-image model. Your goal is to assess each generated
image based on specific aspects and provide a detailed critique, along with
a scoring system. The final output should be formatted as a JSON object
containing individual scores for each aspect and an overall score. The keys
in the JSON object should be: `accuracy_to_prompt`, 
`creativity_and_originality`,
`visual_quality_and_realism`, `consistency_and_cohesion`,
`emotional_or_thematic_resonance`, and `overall_score`. Below is a 
comprehensive
guide to follow in your evaluation process:

1. Key Evaluation Aspects and Scoring Criteria:
For each aspect, provide a score from 0 to 10, where 0 represents poor
performance and 10 represents excellent performance. For each score, 
include
a short explanation or justification (1-2 sentences) explaining why that
score was given. The aspects to evaluate are as follows:

a) Accuracy to Prompt
Assess how well the image matches the description given in the prompt.
Consider whether all requested elements are present and if the scene,
objects, and setting align accurately with the text. Score: 0 (no
alignment) to 10 (perfect match to prompt).

b) Creativity and Originality
Evaluate the uniqueness and creativity of the generated image. Does the
model present an imaginative or aesthetically engaging interpretation of 
the
prompt? Is there any evidence of creativity beyond a literal 
interpretation?
Score: 0 (lacks creativity) to 10 (highly creative and original).

c) Visual Quality and Realism
Assess the overall visual quality, including resolution, detail, and 
realism.
Look for coherence in lighting, shading, and perspective. Even if the image
is stylized or abstract, judge whether the visual elements are 
well-rendered
and visually appealing. Score: 0 (poor quality) to 10 (high-quality and
realistic).

d) Consistency and Cohesion
Check for internal consistency within the image. Are all elements cohesive
and aligned with the prompt? For instance, does the perspective make sense,
and do objects fit naturally within the scene without visual anomalies?
Score: 0 (inconsistent) to 10 (fully cohesive and consistent).

e) Emotional or Thematic Resonance
Evaluate how well the image evokes the intended emotional or thematic tone 
of
the prompt. For example, if the prompt is meant to be serene, does the 
image
convey calmness? If it’s adventurous, does it evoke excitement? Score: 0
(no resonance) to 10 (strong resonance with the prompt’s theme).

2. Overall Score
After scoring each aspect individually, provide an overall score,
representing the model’s general performance on this image. This should be
a weighted average based on the importance of each aspect to the prompt or 
an
average of all aspects.
"

/-- A `google.genai.Client` holding the credential it was constructed with. -/
structure Client where
  api_key : String
  deriving DecidableEq, Repr

/-- `google.genai.types.GenerateContentConfig` as built by `load_gemini_client`:
the fixed system instruction, response mime type, response schema tag and seed. -/
structure GenerateContentConfig where
  system_instruction : String
  response_mime_type : String
  response_schema : String
  seed : Nat
  deriving DecidableEq, Repr

/-- Modelled from the spec: `genai.Client(api_key=...)` is the external
scoring-model client constructor (the google.genai library, out of scope as a
collaborator). Per the spec the credential is "read from process environment;
absence is a configuration error surfaced at construction, not silently
defaulted", so constructing the client with no credential available fails
immediately with a configuration error. -/
def genaiClient (api_key : Option String) : Except PyExn Client :=
  match api_key with
  | none => Except.error (PyExn.configurationError "Missing key inputs argument")
  | some k => Except.ok { api_key := k }

/-- `load_gemini_client()`: build the client from the `GEMINI_API_KEY`
environment entry and the fixed generation configuration. The process
environment is passed explicitly as `env` (the model of `os.getenv`). -/
def load_gemini_client (env : String → Option String) :
    Except PyExn (Client × GenerateContentConfig) :=
  match genaiClient (env "GEMINI_API_KEY") with
  | Except.error e => Except.error e
  | Except.ok client =>
      Except.ok (client,
        { system_instruction := VERIFIER_PROMPT.replace "\"\"\"" "",
          response_mime_type := "application/json",
          response_schema := "list[Grading]",
          seed := 1994 })

/-- The `LLMGrader` object state: client, generation config, supported metrics. -/
structure LLMGrader where
  client : Client
  generation_config : GenerateContentConfig
  supported_metrics : List String
  deriving DecidableEq, Repr

/-- `LLMGrader.__init__`: load the client and configuration, record the
supported metric names. -/
def LLMGrader.init (env : String → Option String) : Except PyExn LLMGrader :=
  match load_gemini_client env with
  | Except.error e => Except.error e
  | Except.ok (client, gen_config) =>
      Except.ok
        { client := client,
          generation_config := gen_config,
          supported_metrics :=
            ["accuracy_to_prompt",
             "creativity_and_originality",
             "visual_quality_and_realism",
             "consistency_and_cohesion",
             "emotional_or_thematic_resonance",
             "overall_score"] }

/-- `google.genai.types.Content`: the single user-role multimodal message. -/
structure Content where
  parts : List Part
  role : String
  deriving DecidableEq, Repr

/-- One `generate_content` request: model name, contents and configuration. -/
structure Request where
  model : String
  contents : Content
  config : GenerateContentConfig
  deriving DecidableEq, Repr

/-- The response as seen by `score`: `response.parsed` is the structured
payload deserialized against `list[Grading]`, or `none` when deserialization
failed (the genai SDK leaves `parsed` as Python `None` in that case). -/
structure Response where
  parsed : Option (List Grading)

/-- The extraction chain `response.parsed[0][metric_to_chase]["score"]`:
subscripting `None` is a `TypeError`, subscripting an empty list is an
`IndexError`, a key outside the six is a `KeyError`, otherwise the numeric
score value of element 0 at the requested key. -/
def subscriptExtract (parsed : Option (List Grading)) (metric : String) :
    Except PyExn ℚ :=
  match parsed with
  | none => Except.error (PyExn.typeError "NoneType object is not subscriptable")
  | some [] => Except.error (PyExn.indexError "list index out of range")
  | some (g :: _) =>
      match Grading.get g metric with
      | some sc => Except.ok sc.score
      | none => Except.error (PyExn.keyError metric)

/-- `LLMGrader.score(self, images, prompts, metric_to_chase, max_new_tokens)`.
The external call `self.client.models.generate_content` is the parameter
`respond`; the result triple is (returned value or raised exception, the list
of requests issued during the call, the state of `self` after the call).
`max_new_tokens` is accepted but never read by the body. -/
def LLMGrader.score (self : LLMGrader) (images : PyVal) (prompts : PyVal)
    (metric_to_chase : String) (max_new_tokens : Nat)
    (respond : Request → Response) :
    (Except PyExn ℚ) × List Request × LLMGrader :=
  if metric_to_chase ∉ self.supported_metrics then
    (Except.error (PyExn.valueError
        (unknownMetricMsg metric_to_chase self.supported_metrics)), [], self)
  else
    match assemble ((listify prompts).zip (listify images)) with
    | Except.error e => (Except.error e, [], self)
    | Except.ok inputs =>
        let req : Request :=
          { model := "gemini-2.0-flash",
            contents := { parts := inputs, role := "user" },
            config := self.generation_config }
        let response := respond req
        (subscriptExtract response.parsed metric_to_chase, [req], self)

/-- The call `score(img, prompt)` with the optional parameters omitted:
Python fills in the declared defaults `metric_to_chase="overall_score"` and
`max_new_tokens=300`. -/
def LLMGrader.scoreDefault (self : LLMGrader) (images : PyVal) (prompts : PyVal)
    (respond : Request → Response) :
    (Except PyExn ℚ) × List Request × LLMGrader :=
  self.score images prompts "overall_score" 300 respond

/-- The request constructed by `score` once the inputs are assembled
(definitionally the record built in the body of `score`). -/
def mkRequest (g : LLMGrader) (inputs : List Part) : Request :=
  { model := "gemini-2.0-flash",
    contents := { parts := inputs, role := "user" },
    config := g.generation_config }

/-- A score value lies in the rubric's [0, 10] range. -/
def Score.inRange (s : Score) : Prop :=
  0 ≤ s.score ∧ s.score ≤ 10

/-- The spec's response contract for one `Grading` record: each of the six
aspects' scores is a number in [0, 10]. -/
def Grading.inRange (g : Grading) : Prop :=
  Score.inRange g.accuracy_to_prompt
    ∧ Score.inRange g.creativity_and_originality
    ∧ Score.inRange g.visual_quality_and_realism
    ∧ Score.inRange g.consistency_and_cohesion
    ∧ Score.inRange g.emotional_or_thematic_resonance
    ∧ Score.inRange g.overall_score

/-- A process environment holding the credential. -/
def envWithKey : String → Option String :=
  fun name => if name = "GEMINI_API_KEY" then some "test-key" else none

/-- A process environment with no credential at all. -/
def emptyEnv : String → Option String :=
  fun _ => none

/-- The grader state `LLMGrader.init envWithKey` constructs. -/
def graderK : LLMGrader :=
  { client := { api_key := "test-key" },
    generation_config :=
      { system_instruction := VERIFIER_PROMPT.replace "\"\"\"" "",
        response_mime_type := "application/json",
        response_schema := "list[Grading]",
        seed := 1994 },
    supported_metrics := gradingKeys }

/-- A small palette-mode test image. -/
def imgA : Img :=
  { mode := "P", rgb := [(1, 2, 3), (4, 5, 6)], extra := [9] }

/-- A small RGBA test image. -/
def imgB : Img :=
  { mode := "RGBA", rgb := [(10, 11, 12)], extra := [0, 1] }

/-- A `Score` record. -/
def mkScore (q : ℚ) (e : String) : Score :=
  { score := q, explanation := e }

/-- A `Grading` giving every aspect the same score. -/
def gradingConst (q : ℚ) : Grading :=
  { accuracy_to_prompt := mkScore q "ok",
    creativity_and_originality := mkScore q "ok",
    visual_quality_and_realism := mkScore q "ok",
    consistency_and_cohesion := mkScore q "ok",
    emotional_or_thematic_resonance := mkScore q "ok",
    overall_score := mkScore q "ok" }

/-- A `Grading` whose overall score is 7.5 (the spec's mocked response). -/
def grading75 : Grading :=
  { accuracy_to_prompt := mkScore 2 "weak",
    creativity_and_originality := mkScore 2 "weak",
    visual_quality_and_realism := mkScore 2 "weak",
    consistency_and_cohesion := mkScore 2 "weak",
    emotional_or_thematic_resonance := mkScore 2 "weak",
    overall_score := mkScore 7.5 "good" }

/-- A mocked backend answering every request with the given grading sequence. -/
def respondWith (gs : List Grading) : Request → Response :=
  fun _ => { parsed := some gs }

/-- A mocked backend whose structured payload failed to deserialize. -/
def respondNone : Request → Response :=
  fun _ => { parsed := none }

theorem strContains_append_left {s : String} (t : String) {pat : String}
    (h : strContains s pat) : strContains (s ++ t) pat := by
  obtain ⟨u, v, huv⟩ := h
  exact ⟨u, v ++ t.data, by rw [String.data_append, ← huv]; simp⟩

theorem strContains_append_right (s : String) {t pat : String}
    (h : strContains t pat) : strContains (s ++ t) pat := by
  obtain ⟨u, v, huv⟩ := h
  exact ⟨s.data ++ u, v, by rw [String.data_append, ← huv]; simp⟩

theorem strContains_pyRepr (m : String) : strContains (pyRepr m) m := by
  unfold strContains pyRepr
  rw [String.data_append, String.data_append]
  exact List.infix_append _ _ _

theorem strContains_pyReprListAux : ∀ (l : List String) (k : String), k ∈ l →
    strContains (pyReprListAux l) k
  | [], k, h => absurd h (List.not_mem_nil k)
  | [x], k, h => by
      rw [List.mem_singleton] at h
      subst h
      exact strContains_pyRepr k
  | x :: y :: rest, k, h => by
      rcases List.mem_cons.mp h with rfl | h2
      · show strContains (pyRepr k ++ ", " ++ pyReprListAux (y :: rest)) k
        exact strContains_append_left _ (strContains_append_left _ (strContains_pyRepr k))
      · show strContains (pyRepr x ++ ", " ++ pyReprListAux (y :: rest)) k
        exact strContains_append_right _ (strContains_pyReprListAux (y :: rest) k h2)

theorem strContains_pyReprList {l : List String} {k : String} (h : k ∈ l) :
    strContains (pyReprList l) k := by
  unfold pyReprList
  exact strContains_append_left _
    (strContains_append_right _ (strContains_pyReprListAux l k h))

theorem unknownMetricMsg_contains_name (m : String) (l : List String) :
    strContains (unknownMetricMsg m l) m := by
  unfold unknownMetricMsg
  exact strContains_append_left _ (strContains_append_left _
    (strContains_append_right _ (strContains_pyRepr m)))

theorem unknownMetricMsg_contains_set (m : String) (l : List String) :
    strContains (unknownMetricMsg m l) (pyReprList l) := by
  unfold unknownMetricMsg
  exact strContains_append_right _ (List.infix_refl _)

theorem unknownMetricMsg_contains_each (m : String) {k : String} {l : List String}
    (h : k ∈ l) : strContains (unknownMetricMsg m l) k := by
  unfold unknownMetricMsg
  exact strContains_append_right _ (strContains_pyReprList h)

theorem chunkRGB_flattenRGB : ∀ l : List (Nat × Nat × Nat), chunkRGB (flattenRGB l) = l
  | [] => rfl
  | (r, g, b) :: rest => by
      show chunkRGB (r :: g :: b :: flattenRGB rest) = (r, g, b) :: rest
      rw [chunkRGB, chunkRGB_flattenRGB rest]

theorem Grading.get_isSome_iff (g : Grading) (k : String) :
    (Grading.get g k).isSome ↔ k ∈ gradingKeys := by
  unfold Grading.get gradingKeys
  split_ifs with h1 h2 h3 h4 h5 h6 <;> simp_all

theorem Grading.get_inRange {g : Grading} (hg : Grading.inRange g) {k : String}
    {sc : Score} (h : Grading.get g k = some sc) : Score.inRange sc := by
  obtain ⟨h1, h2, h3, h4, h5, h6⟩ := hg
  unfold Grading.get at h
  split_ifs at h <;> simp_all

theorem init_inv {env : String → Option String} {g : LLMGrader}
    (h : LLMGrader.init env = Except.ok g) :
    ∃ k, env "GEMINI_API_KEY" = some k
      ∧ g = { client := { api_key := k },
              generation_config :=
                { system_instruction := VERIFIER_PROMPT.replace "\"\"\"" "",
                  response_mime_type := "application/json",
                  response_schema := "list[Grading]",
                  seed := 1994 },
              supported_metrics := gradingKeys } := by
  cases henv : env "GEMINI_API_KEY" with
  | none => simp [LLMGrader.init, load_gemini_client, genaiClient, henv] at h
  | some k =>
      refine ⟨k, rfl, ?_⟩
      simp [LLMGrader.init, load_gemini_client, genaiClient, henv] at h
      exact h.symm

theorem init_supported_metrics {env : String → Option String} {g : LLMGrader}
    (h : LLMGrader.init env = Except.ok g) : g.supported_metrics = gradingKeys := by
  obtain ⟨k, _, rfl⟩ := init_inv h
  rfl

theorem score_valid_run (g : LLMGrader) {m : String}
    (hm : m ∈ g.supported_metrics) (images prompts : PyVal) {inputs : List Part}
    (ha : assemble ((listify prompts).zip (listify images)) = Except.ok inputs)
    (n : Nat) (respond : Request → Response) :
    g.score images prompts m n respond
      = (subscriptExtract (respond (mkRequest g inputs)).parsed m,
         [mkRequest g inputs], g) := by
  unfold LLMGrader.score
  rw [if_neg (not_not_intro hm), ha]
  rfl

theorem assemble_single (p : String) (i : Img) :
    assemble [(PyVal.str p, PyVal.img i)] = Except.ok (prepare_inputs p i) := by
  simp [assemble, prepare_inputs_py]

theorem assemble_strs_imgs : ∀ (ps : List String) (imgs : List Img),
    assemble ((ps.map PyVal.str).zip (imgs.map PyVal.img))
      = Except.ok ((ps.zip imgs).flatMap fun pi => prepare_inputs pi.1 pi.2)
  | [], _ => by simp [assemble]
  | _ :: _, [] => by simp [assemble]
  | p :: ps, i :: imgs => by
      have ih := assemble_strs_imgs ps imgs
      simp only [List.map_cons, List.zip_cons_cons, assemble, prepare_inputs_py,
        List.flatMap_cons]
      unfold List.zip at ih
      rw [ih]
      rfl

/-- C4: `prepare_inputs` returns exactly two parts in fixed order — the text
part carrying the prompt first, then the image part — where the image part's
bytes are the PNG encoding of the image normalized to three-channel RGB
(alpha/palette side information discarded, mode forced to RGB), produced
in memory, and the encoding is lossless (`pngDecode` recovers the converted
image). -/
theorem prepare_inputs_two_parts_png (prompt : String) (image : Img) :
    prepare_inputs prompt image
        = [Part.from_text prompt,
           Part.from_bytes (pngEncode (image.convert "RGB")) "image/png"]
      ∧ (image.convert "RGB").mode = "RGB"
      ∧ (image.convert "RGB").extra = []
      ∧ pngDecode (convert_to_bytes image) = image.convert "RGB" := by
  refine ⟨rfl, rfl, rfl, ?_⟩
  unfold pngDecode convert_to_bytes pngEncode Img.convert
  simp [chunkRGB_flattenRGB]

/-- C6: constructing the grader when the environment carries no credential
fails at construction time with the configuration error — the absence is not
silently defaulted, and no grader object results on which a later `score`
call could fail instead. -/
theorem missing_credential_fails_at_construction
    (env : String → Option String) (h : env "GEMINI_API_KEY" = none) :
    LLMGrader.init env
      = Except.error (PyExn.configurationError "Missing key inputs argument") := by
  unfold LLMGrader.init load_gemini_client genaiClient
  rw [h]

theorem missing_credential_fails_at_construction_witness :
    emptyEnv "GEMINI_API_KEY" = none
      ∧ LLMGrader.init emptyEnv
          = Except.error (PyExn.configurationError "Missing key inputs argument") :=
  ⟨rfl, missing_credential_fails_at_construction emptyEnv rfl⟩

/-- C7: `max_new_tokens` has no effect — two `score` calls identical except
for its value return the same value, issue the same request, and leave the
same state; the parameter is never wired into the generation configuration. -/
theorem max_new_tokens_no_effect (g : LLMGrader) (images prompts : PyVal)
    (metric_to_chase : String) (n₁ n₂ : Nat) (respond : Request → Response) :
    g.score images prompts metric_to_chase n₁ respond
      = g.score images prompts metric_to_chase n₂ respond := rfl

/-- C9: the single-item normalization in `score` recognizes only the exact
`list` type — a tuple argument is wrapped whole as one single item (a
length-1 normalized sequence, so a call passing a tuple behaves exactly like
one passing a singleton list holding that tuple), never as separate pair
members. -/
theorem tuple_wrapped_as_single_item (l : List PyVal) :
    listify (PyVal.tuple l) = [PyVal.tuple l]
      ∧ (listify (PyVal.tuple l)).length = 1
      ∧ ∀ (g : LLMGrader) (prompts : PyVal) (m : String) (n : Nat)
          (respond : Request → Response),
          g.score (PyVal.tuple l) prompts m n respond
            = g.score (PyVal.list [PyVal.tuple l]) prompts m n respond :=
  ⟨rfl, rfl, fun _ _ _ _ _ => rfl⟩

/-- C1: for a constructed grader and a metric name outside the six recognized
ones, `score` raises the `ValueError` (the spec's `UnsupportedMetricError`)
whose message contains the offending name, the rendering of the full
recognized set, and each recognized name individually — and it issues no
request (the issued-request list is empty). -/
theorem unsupported_metric_raises_before_network
    (env : String → Option String) (g : LLMGrader)
    (hg : LLMGrader.init env = Except.ok g)
    (m : String) (hm : m ∉ gradingKeys)
    (images prompts : PyVal) (n : Nat) (respond : Request → Response) :
    g.score images prompts m n respond
        = (Except.error (PyExn.valueError (unknownMetricMsg m g.supported_metrics)),
           [], g)
      ∧ strContains (unknownMetricMsg m g.supported_metrics) m
      ∧ strContains (unknownMetricMsg m g.supported_metrics)
          (pyReprList g.supported_metrics)
      ∧ ∀ k ∈ g.supported_metrics,
          strContains (unknownMetricMsg m g.supported_metrics) k := by
  have hsm := init_supported_metrics hg
  refine ⟨?_, unknownMetricMsg_contains_name m _, unknownMetricMsg_contains_set m _,
    fun k hk => unknownMetricMsg_contains_each m hk⟩
  unfold LLMGrader.score
  rw [if_pos (show m ∉ g.supported_metrics by rw [hsm]; exact hm)]

theorem unsupported_metric_raises_before_network_witness :
    LLMGrader.init envWithKey = Except.ok graderK
      ∧ "bogus" ∉ gradingKeys
      ∧ (graderK.score (PyVal.img imgA) (PyVal.str "a prompt") "bogus" 300
            (respondWith [gradingConst 7])
          = (Except.error (PyExn.valueError
               (unknownMetricMsg "bogus" graderK.supported_metrics)), [], graderK)
         ∧ strContains (unknownMetricMsg "bogus" graderK.supported_metrics) "bogus"
         ∧ strContains (unknownMetricMsg "bogus" graderK.supported_metrics)
             (pyReprList graderK.supported_metrics)
         ∧ ∀ k ∈ graderK.supported_metrics,
             strContains (unknownMetricMsg "bogus" graderK.supported_metrics) k) :=
  ⟨rfl, by decide,
   unsupported_metric_raises_before_network envWithKey graderK rfl "bogus" (by decide)
     (PyVal.img imgA) (PyVal.str "a prompt") 300 (respondWith [gradingConst 7])⟩

/-- C10: every `score` call — returning or raising — leaves the grader state
(client connection, generation configuration with its fixed seed 1994,
supported-metrics list) unchanged, and the supported-metrics list equals
exactly the six `Grading` keys (a key has a `Grading` field exactly when it
is a supported metric). -/
theorem score_preserves_state_and_metrics
    (env : String → Option String) (g : LLMGrader)
    (hg : LLMGrader.init env = Except.ok g) :
    (∀ (images prompts : PyVal) (m : String) (n : Nat)
        (respond : Request → Response),
        (g.score images prompts m n respond).2.2 = g)
      ∧ g.supported_metrics = gradingKeys
      ∧ g.generation_config.seed = 1994
      ∧ ∀ (gr : Grading) (k : String),
          (Grading.get gr k).isSome ↔ k ∈ g.supported_metrics := by
  obtain ⟨k, henv, rfl⟩ := init_inv hg
  refine ⟨?_, rfl, rfl, fun gr key => Grading.get_isSome_iff gr key⟩
  intro images prompts m n respond
  unfold LLMGrader.score
  split
  · rfl
  · split <;> rfl

theorem score_preserves_state_and_metrics_witness :
    LLMGrader.init envWithKey = Except.ok graderK
      ∧ ((∀ (images prompts : PyVal) (m : String) (n : Nat)
            (respond : Request → Response),
            (graderK.score images prompts m n respond).2.2 = graderK)
         ∧ graderK.supported_metrics = gradingKeys
         ∧ graderK.generation_config.seed = 1994
         ∧ ∀ (gr : Grading) (k : String),
             (Grading.get gr k).isSome ↔ k ∈ graderK.supported_metrics) :=
  ⟨rfl, score_preserves_state_and_metrics envWithKey graderK rfl⟩

/-- C3: with a non-empty parsed response sequence, `score` returns exactly
the numeric score value at key `metric_to_chase` of element 0 of the
sequence, discarding the explanation text, and the call with the optional
arguments omitted uses the declared default metric `overall_score`. -/
theorem score_extracts_first_element
    (env : String → Option String) (g : LLMGrader)
    (hg : LLMGrader.init env = Except.ok g)
    (m : String) (hm : m ∈ gradingKeys)
    (prompt : String) (image : Img)
    (g0 : Grading) (rest : List Grading)
    (respond : Request → Response)
    (hr : ∀ r, (respond r).parsed = some (g0 :: rest)) (n : Nat) :
    (∃ sc, Grading.get g0 m = some sc
        ∧ (g.score (PyVal.img image) (PyVal.str prompt) m n respond).1
            = Except.ok sc.score)
      ∧ (g.scoreDefault (PyVal.img image) (PyVal.str prompt) respond).1
          = Except.ok g0.overall_score.score := by
  have hsm := init_supported_metrics hg
  have ha : assemble ((listify (PyVal.str prompt)).zip (listify (PyVal.img image)))
      = Except.ok (prepare_inputs prompt image) := assemble_single prompt image
  constructor
  · have hm' : m ∈ g.supported_metrics := by rw [hsm]; exact hm
    have hrun := score_valid_run g hm' (PyVal.img image) (PyVal.str prompt) ha n respond
    obtain ⟨sc, hsc⟩ :=
      Option.isSome_iff_exists.mp ((Grading.get_isSome_iff g0 m).mpr hm)
    refine ⟨sc, hsc, ?_⟩
    rw [hrun]
    show subscriptExtract
        (respond (mkRequest g (prepare_inputs prompt image))).parsed m = _
    rw [hr]
    simp [subscriptExtract, hsc]
  · have hov : ("overall_score" : String) ∈ g.supported_metrics := by
      rw [hsm]; decide
    have hrun := score_valid_run g hov (PyVal.img image) (PyVal.str prompt) ha 300 respond
    unfold LLMGrader.scoreDefault
    rw [hrun]
    show subscriptExtract
        (respond (mkRequest g (prepare_inputs prompt image))).parsed "overall_score" = _
    rw [hr]
    have hget : Grading.get g0 "overall_score" = some g0.overall_score := by
      simp [Grading.get]
    simp [subscriptExtract, hget]

theorem score_extracts_first_element_witness :
    LLMGrader.init envWithKey = Except.ok graderK
      ∧ "overall_score" ∈ gradingKeys
      ∧ (∀ r, (respondWith [grading75] r).parsed = some (grading75 :: []))
      ∧ ((∃ sc, Grading.get grading75 "overall_score" = some sc
            ∧ (graderK.score (PyVal.img imgA)
                  (PyVal.str "a red circle on white background")
                  "overall_score" 300 (respondWith [grading75])).1
                = Except.ok sc.score)
         ∧ (graderK.scoreDefault (PyVal.img imgA)
              (PyVal.str "a red circle on white background")
              (respondWith [grading75])).1
             = Except.ok (7.5 : ℚ)) :=
  ⟨rfl, by decide, fun r => rfl,
   score_extracts_first_element envWithKey graderK rfl "overall_score" (by decide)
     "a red circle on white background" imgA grading75 [] (respondWith [grading75])
     (fun r => rfl) 300⟩

/-- C8: for every metric name in the recognized six-name set and a valid
single (prompt, image) pair, under the response contract (a non-empty
sequence of gradings whose aspect scores all lie in [0, 10]) `score` returns
a numeric value in [0, 10]. -/
theorem supported_metric_score_in_range
    (env : String → Option String) (g : LLMGrader)
    (hg : LLMGrader.init env = Except.ok g)
    (m : String) (hm : m ∈ gradingKeys)
    (prompt : String) (image : Img) (n : Nat)
    (respond : Request → Response)
    (hc : ∀ r, ∃ gs, (respond r).parsed = some gs ∧ gs ≠ []
            ∧ ∀ gr ∈ gs, Grading.inRange gr) :
    ∃ q, (g.score (PyVal.img image) (PyVal.str prompt) m n respond).1 = Except.ok q
        ∧ 0 ≤ q ∧ q ≤ 10 := by
  have hsm := init_supported_metrics hg
  have hm' : m ∈ g.supported_metrics := by rw [hsm]; exact hm
  have ha : assemble ((listify (PyVal.str prompt)).zip (listify (PyVal.img image)))
      = Except.ok (prepare_inputs prompt image) := assemble_single prompt image
  have hrun := score_valid_run g hm' (PyVal.img image) (PyVal.str prompt) ha n respond
  obtain ⟨gs, hp, hne, hall⟩ := hc (mkRequest g (prepare_inputs prompt image))
  cases gs with
  | nil => exact absurd rfl hne
  | cons g0 rest =>
      obtain ⟨sc, hsc⟩ :=
        Option.isSome_iff_exists.mp ((Grading.get_isSome_iff g0 m).mpr hm)
      have hb := Grading.get_inRange (hall g0 (List.mem_cons_self g0 rest)) hsc
      refine ⟨sc.score, ?_, hb.1, hb.2⟩
      rw [hrun]
      show subscriptExtract
          (respond (mkRequest g (prepare_inputs prompt image))).parsed m = _
      rw [hp]
      simp [subscriptExtract, hsc]

theorem respondWith_gradingConst_contract :
    ∀ r, ∃ gs, (respondWith [gradingConst 7] r).parsed = some gs ∧ gs ≠ []
        ∧ ∀ gr ∈ gs, Grading.inRange gr := by
  intro r
  refine ⟨[gradingConst 7], rfl, by simp, ?_⟩
  intro gr hgr
  rw [List.mem_singleton] at hgr
  subst hgr
  exact ⟨⟨by decide, by decide⟩, ⟨by decide, by decide⟩, ⟨by decide, by decide⟩,
         ⟨by decide, by decide⟩, ⟨by decide, by decide⟩, ⟨by decide, by decide⟩⟩

theorem supported_metric_score_in_range_witness :
    LLMGrader.init envWithKey = Except.ok graderK
      ∧ "visual_quality_and_realism" ∈ gradingKeys
      ∧ (∀ r, ∃ gs, (respondWith [gradingConst 7] r).parsed = some gs ∧ gs ≠ []
            ∧ ∀ gr ∈ gs, Grading.inRange gr)
      ∧ ∃ q, (graderK.score (PyVal.img imgA) (PyVal.str "a prompt")
                "visual_quality_and_realism" 300 (respondWith [gradingConst 7])).1
              = Except.ok q
          ∧ 0 ≤ q ∧ q ≤ 10 :=
  ⟨rfl, by decide, respondWith_gradingConst_contract,
   supported_metric_score_in_range envWithKey graderK rfl "visual_quality_and_realism"
     (by decide) "a prompt" imgA 300 (respondWith [gradingConst 7])
     respondWith_gradingConst_contract⟩

/-- C2 counterexample: with a mocked response whose grading sequence is
empty, `score` raises the index-out-of-bounds `IndexError` coming from the
unchecked `response.parsed[0]` subscript — it does not raise any dedicated
malformed-response error — refuting the claim at this concrete input. -/
theorem empty_response_malformed_cex :
    (graderK.score (PyVal.img imgA) (PyVal.str "a prompt") "overall_score" 300
        (respondWith [])).1
      = Except.error (PyExn.indexError "list index out of range") := rfl

/-- C2 amended: when the model's structured response deserializes to an empty
sequence of gradings, `score` does not return a value — but the failure is
the index-out-of-bounds fault `IndexError` ("list index out of range") from
the unchecked element-0 subscript, not a dedicated malformed-response
error. -/
theorem empty_response_raises_index_fault
    (env : String → Option String) (g : LLMGrader)
    (hg : LLMGrader.init env = Except.ok g)
    (m : String) (hm : m ∈ gradingKeys)
    (prompt : String) (image : Img) (n : Nat)
    (respond : Request → Response) (hr : ∀ r, (respond r).parsed = some []) :
    (g.score (PyVal.img image) (PyVal.str prompt) m n respond).1
      = Except.error (PyExn.indexError "list index out of range") := by
  have hsm := init_supported_metrics hg
  have hm' : m ∈ g.supported_metrics := by rw [hsm]; exact hm
  have ha : assemble ((listify (PyVal.str prompt)).zip (listify (PyVal.img image)))
      = Except.ok (prepare_inputs prompt image) := assemble_single prompt image
  have hrun := score_valid_run g hm' (PyVal.img image) (PyVal.str prompt) ha n respond
  rw [hrun]
  show subscriptExtract
      (respond (mkRequest g (prepare_inputs prompt image))).parsed m = _
  rw [hr]
  rfl

theorem empty_response_raises_index_fault_witness :
    LLMGrader.init envWithKey = Except.ok graderK
      ∧ "overall_score" ∈ gradingKeys
      ∧ (∀ r, (respondWith ([] : List Grading) r).parsed = some [])
      ∧ (graderK.score (PyVal.img imgA) (PyVal.str "a prompt") "overall_score" 300
            (respondWith [])).1
          = Except.error (PyExn.indexError "list index out of range") :=
  ⟨rfl, by decide, fun r => rfl,
   empty_response_raises_index_fault envWithKey graderK rfl "overall_score" (by decide)
     "a prompt" imgA 300 (respondWith []) (fun r => rfl)⟩

/-- C5 counterexample: one prompt with a list of two images — after the
single-item normalization the two sequences have lengths 1 and 2, which are
not equal, yet `score` proceeds without error: `zip` truncates silently, the
issued request carries the parts of the first pair only, and the second
image's part appears nowhere in it, refuting the claim at this input. -/
theorem unequal_lengths_pair_dropped_cex :
    (listify (PyVal.str "a prompt")).length = 1
      ∧ (listify (PyVal.list [PyVal.img imgA, PyVal.img imgB])).length = 2
      ∧ (graderK.score (PyVal.list [PyVal.img imgA, PyVal.img imgB])
            (PyVal.str "a prompt") "overall_score" 300
            (respondWith [gradingConst 7])).2.1
          = [mkRequest graderK (prepare_inputs "a prompt" imgA)]
      ∧ Part.from_bytes (convert_to_bytes imgB) "image/png"
          ∉ (mkRequest graderK (prepare_inputs "a prompt" imgA)).contents.parts :=
  ⟨rfl, rfl, rfl, by decide⟩

/-- C5 amended: `score` wraps each non-list argument into a one-element
sequence and pairs positionally by `zip`, truncating silently to the shorter
normalized sequence (there is no equal-length check); when the two normalized
sequences do have equal length, pair i is prompts[i] with images[i] for every
index i and every pair's parts appear in the assembled request in pair
order. -/
theorem equal_length_pairing (env : String → Option String) (g : LLMGrader)
    (hg : LLMGrader.init env = Except.ok g)
    (m : String) (hm : m ∈ gradingKeys)
    (ps : List String) (imgs : List Img) (hlen : ps.length = imgs.length)
    (n : Nat) (respond : Request → Response) :
    g.score (PyVal.list (imgs.map PyVal.img)) (PyVal.list (ps.map PyVal.str))
        m n respond
        = (subscriptExtract
             (respond (mkRequest g
               ((ps.zip imgs).flatMap fun pi => prepare_inputs pi.1 pi.2))).parsed m,
           [mkRequest g ((ps.zip imgs).flatMap fun pi => prepare_inputs pi.1 pi.2)], g)
      ∧ (ps.zip imgs).length = ps.length
      ∧ (ps.zip imgs).length = imgs.length
      ∧ ∀ (i : Nat) (a : String) (b : Img),
          ps[i]? = some a → imgs[i]? = some b → (ps.zip imgs)[i]? = some (a, b) := by
  have hsm := init_supported_metrics hg
  have hm' : m ∈ g.supported_metrics := by rw [hsm]; exact hm
  have ha : assemble ((listify (PyVal.list (ps.map PyVal.str))).zip
        (listify (PyVal.list (imgs.map PyVal.img))))
      = Except.ok ((ps.zip imgs).flatMap fun pi => prepare_inputs pi.1 pi.2) :=
    assemble_strs_imgs ps imgs
  refine ⟨score_valid_run g hm' (PyVal.list (imgs.map PyVal.img))
      (PyVal.list (ps.map PyVal.str)) ha n respond, ?_, ?_, ?_⟩
  · simp [List.length_zip, hlen]
  · simp [List.length_zip, hlen]
  · intro i a b h1 h2
    rw [List.getElem?_zip_eq_some]
    exact ⟨h1, h2⟩

theorem equal_length_pairing_witness :
    LLMGrader.init envWithKey = Except.ok graderK
      ∧ "overall_score" ∈ gradingKeys
      ∧ (["p1", "p2"] : List String).length = ([imgA, imgB] : List Img).length
      ∧ (graderK.score (PyVal.list ([imgA, imgB].map PyVal.img))
            (PyVal.list (["p1", "p2"].map PyVal.str)) "overall_score" 300
            (respondWith [gradingConst 7])
            = (subscriptExtract
                 (respondWith [gradingConst 7] (mkRequest graderK
                   ((["p1", "p2"].zip [imgA, imgB]).flatMap
                     fun pi => prepare_inputs pi.1 pi.2))).parsed "overall_score",
               [mkRequest graderK ((["p1", "p2"].zip [imgA, imgB]).flatMap
                   fun pi => prepare_inputs pi.1 pi.2)], graderK)
         ∧ (["p1", "p2"].zip [imgA, imgB]).length = (["p1", "p2"] : List String).length
         ∧ (["p1", "p2"].zip [imgA, imgB]).length = ([imgA, imgB] : List Img).length
         ∧ ∀ (i : Nat) (a : String) (b : Img),
             (["p1", "p2"] : List String)[i]? = some a →
             ([imgA, imgB] : List Img)[i]? = some b →
             (["p1", "p2"].zip [imgA, imgB])[i]? = some (a, b)) :=
  ⟨rfl, by decide, rfl,
   equal_length_pairing envWithKey graderK rfl "overall_score" (by decide)
     ["p1", "p2"] [imgA, imgB] rfl 300 (respondWith [gradingConst 7])⟩

end LlmGrading
